import Mathlib

/-!
Verification development for the imgui-ext derive crates.

The development shallowly embeds the two derive implementations of the
repository:

* `src/modules/derive/src/lib.rs` (the `ImGuiExt` derive): the directive
  grammar and the artifact emitter are translated function by function
  (`parse_meta`, `parse_meta_list`, `parse_input`, `parse_slider`,
  `ImGuiAttr::into_token_stream`, `imgui_body_fields`).
* `src/imgui_derive/src/lib.rs` (the `Gui` derive): `impl_derive` and
  `struct_body` are translated from source.  The crate also declares
  `mod error;` and `mod parser;` whose files are not part of the sources
  at hand; the pieces of those modules that claims depend on are modelled
  from the specification and are marked as such in their doc comments.

Source coordinates (syn spans) are modelled by an abstract `Span` token.
Float literals never take part in arithmetic in the source (they are read
from a literal and re-emitted), so their values are carried exactly as
rationals.
-/

/-- An abstract source coordinate, standing for a syn `Span`. -/
structure Span where
  pos : Nat
deriving DecidableEq, Repr

/-- A literal of the annotation micro-language, mirroring the `syn::Lit`
kinds the source dispatches on: string, integer and float.  Integer
literals carry the (unsigned, u64) value that `Lit::Int::value` returns;
float values are carried exactly, since the source only moves them from
the parsed literal into the emitted literal. -/
inductive Lit where
  | str (s : String)
  | int (n : Nat)
  | float (q : Rat)
deriving DecidableEq, Repr

/-- `syn::Meta`, the shape of one (possibly nested) annotation node:
a bare word, a `key = literal` pair, or a named list `name( ... )`.
List elements are `syn::NestedMeta`: either a nested `Meta` (`Sum.inl`)
or a bare literal (`Sum.inr`).  Each node carries the spans the source
reads from it: the ident span and the whole-node span. -/
inductive Meta where
  | word (ident : String) (span : Span)
  | nameValue (ident : String) (identSpan : Span) (lit : Lit) (span : Span)
  | list (ident : String) (identSpan : Span) (nested : List (Meta ⊕ Lit)) (span : Span)

/-- `syn::NestedMeta`: a nested meta item or a bare literal. -/
abbrev NestedMeta := Meta ⊕ Lit

/-- A diagnostic of the `ImGuiExt` derive: `syn::parse::Error`, carrying
the span it was constructed with and its message. -/
structure Error where
  span : Span
  msg : String
deriving DecidableEq, Repr

/-- Outcome of a fallible step of the `ImGuiExt` derive.  `ok` and `err`
mirror `Result`; `panic` records an aborting `unimplemented!`-style macro
invocation, observably different from a returned compile error. -/
inductive Res (α : Type) where
  | ok (a : α)
  | err (e : Error)
  | panic (msg : String)
deriving DecidableEq, Repr

/-- Message constant `INVALID_ATTR_FORMAT` of modules/derive. -/
def INVALID_ATTR_FORMAT : String := "Invalid attribute format"

/-- Message constant `INVALID_IDENT` of modules/derive. -/
def INVALID_IDENT : String := "Invalid identifier token"

/-- Message constant `UNSUPPORTED_META` of modules/derive. -/
def UNSUPPORTED_META : String := "Unsupported metadata"

/-- The `ImGuiAttr` enum of modules/derive, with the variants and field
order of the source: `Simple`, `Input`, `Slider`, `Drag`. -/
inductive ImGuiAttr where
  | simple (label : Option String)
  | input (label : Option String) (precission : Option Int)
      (step : Option Rat) (step_fast : Option Rat)
  | slider (label : Option String) (display : Option String)
      (min : Rat) (max : Rat)
  | drag (label : Option String) (display : Option String)
      (min : Option Rat) (max : Option Rat)
      (speed : Option Rat) (power : Option Rat)
deriving DecidableEq, Repr

/-- The truncating Rust cast `value as i32` applied to the `u64` value of
an integer literal (`lit.value() as i32` in `parse_input`). -/
def u64_as_i32 (n : Nat) : Int :=
  let m := n % 4294967296
  if m < 2147483648 then (m : Int) else (m : Int) - 4294967296

/-- The scanning loop of `parse_input` (modules/derive, lines 177-209):
walks the nested items of `input( ... )`, accumulating the mutable state
`step`, `step_fast`, `precission`, `label` of the source, with the same
dispatch: bare literal is an error; `key = int` accepts only `precission`;
`key = float` accepts `step` and `step_fast`; `key = string` accepts
`label`; a second occurrence of a key is an "already set" error; any other
key is `INVALID_IDENT`; any other item shape is "Unrecognized attribute 2". -/
def inputScan (listSpan : Span) :
    List NestedMeta → Option Rat → Option Rat → Option Int → Option String →
    Res (Option Rat × Option Rat × Option Int × Option String)
  | [], step, step_fast, precission, label => .ok (step, step_fast, precission, label)
  | .inr _ :: _, _, _, _, _ => .err ⟨listSpan, "Unrecognized attribute literal"⟩
  | .inl (.nameValue id idSpan (.int n) _) :: rest, step, step_fast, precission, label =>
    if id = "precission" then
      if precission.isSome then .err ⟨idSpan, "`precission` attribute already set."⟩
      else inputScan listSpan rest step step_fast (some (u64_as_i32 n)) label
    else .err ⟨idSpan, INVALID_IDENT⟩
  | .inl (.nameValue id idSpan (.float q) _) :: rest, step, step_fast, precission, label =>
    if id = "step" then
      if step.isSome then .err ⟨idSpan, "`step` attribute already set."⟩
      else inputScan listSpan rest (some q) step_fast precission label
    else if id = "step_fast" then
      if step_fast.isSome then .err ⟨idSpan, "`step_fast` attribute already set."⟩
      else inputScan listSpan rest step (some q) precission label
    else .err ⟨idSpan, INVALID_IDENT⟩
  | .inl (.nameValue id idSpan (.str s) _) :: rest, step, step_fast, precission, label =>
    if id = "label" then
      if label.isSome then .err ⟨idSpan, "`label` attribute already set."⟩
      else inputScan listSpan rest step step_fast precission (some s)
    else .err ⟨idSpan, INVALID_IDENT⟩
  | .inl _ :: _, _, _, _, _ => .err ⟨listSpan, "Unrecognized attribute 2"⟩

/-- `parse_input` of modules/derive: scan the nested list, then build
`ImGuiAttr::Input` (all four parameters optional, never required). -/
def parse_input (listSpan : Span) (nested : List NestedMeta) : Res ImGuiAttr :=
  match inputScan listSpan nested none none none none with
  | .err e => .err e
  | .panic s => .panic s
  | .ok (step, step_fast, precission, label) =>
      .ok (.input label precission step step_fast)

/-- The scanning loop of `parse_slider` (modules/derive, lines 219-254),
accumulating `min`, `max`, `label`, `display` with the source's dispatch:
`key = float` accepts `min` and `max`; `key = string` accepts `label` and
`display`; duplicates are "already set" errors; other keys `INVALID_IDENT`;
bare literals and other item shapes as in `parse_input`. -/
def sliderScan (listSpan : Span) :
    List NestedMeta → Option Rat → Option Rat → Option String → Option String →
    Res (Option Rat × Option Rat × Option String × Option String)
  | [], min, max, label, display => .ok (min, max, label, display)
  | .inr _ :: _, _, _, _, _ => .err ⟨listSpan, "Unrecognized attribute literal"⟩
  | .inl (.nameValue id idSpan (.float q) _) :: rest, min, max, label, display =>
    if id = "min" then
      if min.isSome then .err ⟨idSpan, "`min` attribute already set."⟩
      else sliderScan listSpan rest (some q) max label display
    else if id = "max" then
      if max.isSome then .err ⟨idSpan, "`max` attribute already set."⟩
      else sliderScan listSpan rest min (some q) label display
    else .err ⟨idSpan, INVALID_IDENT⟩
  | .inl (.nameValue id idSpan (.str s) _) :: rest, min, max, label, display =>
    if id = "label" then
      if label.isSome then .err ⟨idSpan, "`label` attribute already set."⟩
      else sliderScan listSpan rest min max (some s) display
    else if id = "display" then
      if display.isSome then .err ⟨idSpan, "`display` attribute already set."⟩
      else sliderScan listSpan rest min max label (some s)
    else .err ⟨idSpan, INVALID_IDENT⟩
  | .inl _ :: _, _, _, _, _ => .err ⟨listSpan, "Unrecognized attribute 2"⟩

/-- `parse_slider` of modules/derive: scan, then build `ImGuiAttr::Slider`.
The required parameters are discharged in the written order of the struct
literal in the source, `min` first, then `max`: a missing `min` reports
"Attribute `min` missing." before `max` is even examined. -/
def parse_slider (listSpan : Span) (nested : List NestedMeta) : Res ImGuiAttr :=
  match sliderScan listSpan nested none none none none with
  | .err e => .err e
  | .panic s => .panic s
  | .ok (min, max, label, display) =>
    match min with
    | none => .err ⟨listSpan, "Attribute `min` missing."⟩
    | some mn =>
      match max with
      | none => .err ⟨listSpan, "Attribute `max` missing."⟩
      | some mx => .ok (.slider label display mn mx)

/-- `parse_meta_list` of modules/derive (lines 269-354): examines what is
between the parentheses of `#[imgui( ... )]`.  The length-one check comes
first; then the single element is dispatched: a bare literal is
`INVALID_ATTR_FORMAT`; `label = "..."` gives `Simple`; a named inner list
dispatches on `input` / `slider` / `drag` (the latter being
`unimplemented!("drag")`, an aborting panic) or fails `UNSUPPORTED_META`;
a bare word gives `Input` or `Drag` with all-default parameters, or fails
`INVALID_ATTR_FORMAT` at the span of the field ident `name`; a non-string
`key = value` falls to the catch-all `INVALID_ATTR_FORMAT`. -/
def parse_meta_list (nameSpan : Span) (nested : List NestedMeta) (listSpan : Span) :
    Res ImGuiAttr :=
  if nested.length ≠ 1 then .err ⟨listSpan, INVALID_ATTR_FORMAT⟩
  else
    match nested with
    | .inr _ :: _ => .err ⟨listSpan, INVALID_ATTR_FORMAT⟩
    | .inl m :: _ =>
      match m with
      | .nameValue id idSpan (.str lab) _ =>
        if id = "label" then .ok (.simple (some lab))
        else .err ⟨idSpan, INVALID_IDENT⟩
      | .list lid _ lnested lspan =>
        match lid with
        | "input" => parse_input lspan lnested
        | "slider" => parse_slider lspan lnested
        | "drag" => .panic "drag"
        | _ => .err ⟨lspan, UNSUPPORTED_META⟩
      | .word wid _ =>
        match wid with
        | "input" => .ok (.input none none none none)
        | "drag" => .ok (.drag none none none none none none)
        | _ => .err ⟨nameSpan, INVALID_ATTR_FORMAT⟩
      | .nameValue _ _ _ _ => .err ⟨nameSpan, INVALID_ATTR_FORMAT⟩
    | [] => .err ⟨listSpan, INVALID_ATTR_FORMAT⟩

/-- `parse_meta` of modules/derive (lines 358-383): dispatch on the shape
of the whole `#[imgui ...]` meta.  A bare `#[imgui]` is `Simple` with no
label; a list defers to `parse_meta_list`; the name-value form
`#[imgui = "..."]` is `INVALID_ATTR_FORMAT` at the meta's span. -/
def parse_meta (nameSpan : Span) (meta : Meta) : Res ImGuiAttr :=
  match meta with
  | .word _ _ => .ok (.simple none)
  | .list _ _ nested span => parse_meta_list nameSpan nested span
  | .nameValue _ _ _ span => .err ⟨span, INVALID_ATTR_FORMAT⟩

/-- One field of the generated parameter record, as `into_token_stream`
emits it: a plain literal, `Some(lit)`, `None`, an `im_str!` string, or
`Some(im_str!(s))`. -/
inductive FieldVal where
  | lit (l : Lit)
  | someLit (l : Lit)
  | noneVal
  | str (s : String)
  | someStr (s : String)
deriving DecidableEq, Repr

/-- One emitted binding statement: the widget-build operation invoked
(the trait whose `build` is called), the field accessed by mutable
reference (`&mut ext.#ident`), and the fields of the parameter record in
emission order. -/
structure Binding where
  op : String
  field : String
  params : List (String × FieldVal)
deriving DecidableEq, Repr

/-- `Some( Literal::i32_suffixed v )` or `None` for an optional int. -/
def optIntVal : Option Int → FieldVal
  | some n => .someLit (.int n.toNat)
  | none => .noneVal

/-- `Some( ... )` or `None` for an optional float parameter. -/
def optRatVal : Option Rat → FieldVal
  | some q => .someLit (.float q)
  | none => .noneVal

/-- `Some(im_str!(s))` or `None` for an optional string parameter. -/
def optStrVal : Option String → FieldVal
  | some s => .someStr s
  | none => .noneVal

/-- `ImGuiAttr::into_token_stream` of modules/derive (lines 56-141).  For
each variant the label falls back to the field ident
(`label.unwrap_or(ident.to_string())`) and the parameter-record fields
are emitted in the order the source extends the token stream:
Simple: label; Input: label, precission, step, step_fast; Slider: min,
max, label, display; Drag: label, display, min, max, power, speed.  Every
reachable arm returns `Ok`; the catch-all `unimplemented!()` arm of the
source is unreachable because the four variants are all covered. -/
def into_token_stream (attr : ImGuiAttr) (ident : String) : Res Binding :=
  match attr with
  | .simple label =>
    .ok ⟨"Simple", ident, [("label", .str (label.getD ident))]⟩
  | .input label precission step step_fast =>
    .ok ⟨"Input", ident,
      [("label", .str (label.getD ident)),
       ("precission", optIntVal precission),
       ("step", optRatVal step),
       ("step_fast", optRatVal step_fast)]⟩
  | .slider label display min max =>
    .ok ⟨"Slider", ident,
      [("min", .lit (.float min)),
       ("max", .lit (.float max)),
       ("label", .str (label.getD ident)),
       ("display", optStrVal display)]⟩
  | .drag label display min max speed power =>
    .ok ⟨"Drag", ident,
      [("label", .str (label.getD ident)),
       ("display", optStrVal display),
       ("min", optRatVal min),
       ("max", optRatVal max),
       ("power", optRatVal power),
       ("speed", optRatVal speed)]⟩

/-- One attribute of a field as the `ImGuiExt` derive sees it: its path
(`imgui` or something else), its span, and the result of syn's
`Attribute::parse_meta` (which can itself fail with a syn error). -/
structure MAttr where
  path : String
  span : Span
  parseMeta : Except Error Meta

/-- A named struct field handed to `imgui_body_fields`: ident, the span
of the ident, the span of the whole field, and its attributes. -/
structure MField where
  ident : String
  identSpan : Span
  span : Span
  attrs : List MAttr

/-- The filter `is_imgui_attr` of modules/derive. -/
def isImguiAttr (a : MAttr) : Bool := a.path == "imgui"

/-- The message of the multiplicity error in `imgui_body_fields`. -/
def onlyOneMsg : String := "Only one `#[imgui]` tag per attribute is allowed"

/-- `collect::<Result<Vec<_>, Error>>()`: sequence a list of syn parse
results, failing at the first error. -/
def collectExc : List (Except Error Meta) → Except Error (List Meta)
  | [] => .ok []
  | .error e :: _ => .error e
  | .ok m :: rest =>
    match collectExc rest with
    | .error e => .error e
    | .ok ms => .ok (m :: ms)

/-- The per-field closure of `imgui_body_fields` (modules/derive, lines
386-411): filter the `imgui` attributes, syn-parse them all (propagating
the first syn error), emit nothing for an unannotated field, fail with
`onlyOneMsg` at the whole field's span when more than one attribute
remains, and otherwise parse and emit the single attribute.  The result
is `none` (empty token stream) or one emitted binding. -/
def process_field (f : MField) : Res (Option Binding) :=
  match collectExc ((f.attrs.filter isImguiAttr).map MAttr.parseMeta) with
  | .error e => .err e
  | .ok [] => .ok none
  | .ok [m] =>
    match parse_meta f.identSpan m with
    | .err e => .err e
    | .panic s => .panic s
    | .ok attr =>
      match into_token_stream attr f.ident with
      | .err e => .err e
      | .panic s => .panic s
      | .ok b => .ok (some b)
  | .ok (_ :: _ :: _) => .err ⟨f.span, onlyOneMsg⟩

/-- Fail-fast sequencing of the per-field results, as the source's
`.map(|field| ...).collect::<Result<Vec<_>, Error>>()` does: fields are
visited in declaration order and the first error or panic aborts. -/
def resMapM {α β : Type} (g : α → Res β) : List α → Res (List β)
  | [] => .ok []
  | x :: xs =>
    match g x with
    | .err e => .err e
    | .panic s => .panic s
    | .ok b =>
      match resMapM g xs with
      | .err e => .err e
      | .panic s => .panic s
      | .ok bs => .ok (b :: bs)

/-- `imgui_body_fields` of modules/derive: one entry per field in
declaration order, `none` for an unannotated field and one binding for an
annotated one. -/
def imgui_body_fields (fields : List MField) : Res (List (Option Binding)) :=
  resMapM process_field fields

/-- Modelled from the spec: the `error` module of the Gui derive crate
(`mod error;` in src/imgui_derive/src/lib.rs) is not among the sources at
hand.  Its diagnostic kinds are taken from section 7 of the spec together
with the constructors visible in lib.rs (`Error::multiple`,
`ErrorKind::ParseError`, `Error::non_struct`). -/
inductive GErrorKind where
  | multipleDirectives
  | parseError
  | nonStruct
  | syntaxError
  | unsupportedWidgetKind
  | unrecognizedParameter
  | parameterAlreadySet
  | missingRequiredParameter
  | literalKindMismatch
  | typeIncompatible
  | indexOutOfRange
deriving DecidableEq, Repr

/-- A diagnostic of the Gui derive: a kind and a source coordinate. -/
structure GError where
  kind : GErrorKind
  span : Span
deriving DecidableEq, Repr

/-- Modelled from the spec: the `Tag` union produced by the missing
`parser` module, per section 3 of the spec, restricted to the variants
the claims exercise (`Simple{label}` and `Combobox{label, selected}`). -/
inductive Tag where
  | simple (label : Option String)
  | combobox (label : Option String) (selected : Nat)
deriving DecidableEq, Repr

/-- The `TypeCategory` of a field, from section 3 of the spec. -/
inductive TypeCategory where
  | numericScalar (width : Nat) (signed : Bool)
  | numericArray (len : Nat)
  | fixedStringArray (len : Nat)
  | boolean
  | other
deriving DecidableEq, Repr

/-- One attribute as `struct_body` of the Gui derive sees it: its path,
its span, and the outcome of syn's `parse_meta` (`none` models a syn
parse failure, which `struct_body` maps to a `ParseError` at the
attribute's span). -/
structure GAttr where
  path : String
  span : Span
  meta : Option Meta

/-- A named struct field handed to `struct_body` of the Gui derive. -/
structure GField where
  ident : String
  span : Span
  ty : TypeCategory
  attrs : List GAttr

/-- One binding emitted by the Gui derive into `draw_gui`. -/
structure GBinding where
  op : String
  field : String
  params : List (String × FieldVal)
deriving DecidableEq, Repr

/-- The filter on attribute paths used by `struct_body`. -/
def isGuiImgui (a : GAttr) : Bool := a.path == "imgui"

/-- Modelled from the spec: the parameter-table scan of the missing
`parser` module for a `combobox( ... )` argument list, per section 4.2:
each key at most once (second occurrence is ParameterAlreadySet), keys
must be declared parameters of the kind (`label` of string kind,
`selected` of integer kind; a wrong literal kind is LiteralKindMismatch,
an unknown key UnrecognizedParameter), any other item shape a
SyntaxError. -/
def comboboxScan (span : Span) :
    List NestedMeta → Option String → Option Nat →
    Except GError (Option String × Option Nat)
  | [], lab, sel => .ok (lab, sel)
  | .inl (.nameValue "label" idSpan (.str s) _) :: rest, lab, sel =>
    if lab.isSome then .error ⟨.parameterAlreadySet, idSpan⟩
    else comboboxScan span rest (some s) sel
  | .inl (.nameValue "label" idSpan _ _) :: _, _, _ =>
    .error ⟨.literalKindMismatch, idSpan⟩
  | .inl (.nameValue "selected" idSpan (.int n) _) :: rest, lab, sel =>
    if sel.isSome then .error ⟨.parameterAlreadySet, idSpan⟩
    else comboboxScan span rest lab (some n)
  | .inl (.nameValue "selected" idSpan _ _) :: _, _, _ =>
    .error ⟨.literalKindMismatch, idSpan⟩
  | .inl (.nameValue _ idSpan _ _) :: _, _, _ =>
    .error ⟨.unrecognizedParameter, idSpan⟩
  | _ :: _, _, _ => .error ⟨.syntaxError, span⟩

/-- Modelled from the spec: the tag resolver of the missing `parser`
module, per sections 4.1 and 4.2: a bare `#[imgui]` is a Simple tag with
no explicit label; `#[imgui(label = "...")]` is Simple with that label;
`#[imgui(combobox( ... ))]` resolves the combobox parameter table, with
`selected` required (MissingRequiredParameter when unset); any other
named node is UnsupportedWidgetKind; other shapes are SyntaxError. -/
def specResolveTag : Meta → Except GError Tag
  | .word _ _ => .ok (.simple none)
  | .list _ _ nested span =>
    (match nested with
     | [.inl inner] =>
       (match inner with
        | .nameValue "label" _ (.str s) _ => .ok (.simple (some s))
        | .nameValue _ idSpan _ _ => .error ⟨.syntaxError, idSpan⟩
        | .list "combobox" _ args aspan =>
          (match comboboxScan aspan args none none with
           | .error e => .error e
           | .ok (lab, some sel) => .ok (.combobox lab sel)
           | .ok (_, none) => .error ⟨.missingRequiredParameter, aspan⟩)
        | .list _ _ _ lspan => .error ⟨.unsupportedWidgetKind, lspan⟩
        | .word _ wspan => .error ⟨.syntaxError, wspan⟩)
     | _ => .error ⟨.syntaxError, span⟩)
  | .nameValue _ _ _ span => .error ⟨.syntaxError, span⟩

/-- Modelled from the spec: `parser::parse_meta` of the Gui derive, with
the `Vec<Tag>` signature visible in lib.rs.  Section 3 of the spec fixes
exactly one logical directive (one Tag) per annotated field, so a
resolved directive yields a singleton list. -/
def specParseTags (m : Meta) : Except GError (List Tag) :=
  match specResolveTag m with
  | .error e => .error e
  | .ok t => .ok [t]

/-- Modelled from the spec: the per-tag emission of the missing
`parser::emmit_tag_tokens`, per sections 4.3 and 4.4: check the tag kind
against the field's TypeCategory (Simple accepts any category; Combobox
requires FixedStringArray(len) and a `selected` literal inside
`[0, len)`, flagged IndexOutOfRange otherwise), then emit one invocation
of the build operation for the tag's kind on the field. -/
def specEmit (f : GField) (t : Tag) : Except GError GBinding :=
  match t with
  | .simple lab =>
    .ok ⟨"Simple", f.ident, [("label", .str (lab.getD f.ident))]⟩
  | .combobox lab sel =>
    match f.ty with
    | .fixedStringArray len =>
      if sel < len then
        .ok ⟨"Combobox", f.ident,
          [("label", .str (lab.getD f.ident)), ("selected", .lit (.int sel))]⟩
      else .error ⟨.indexOutOfRange, f.span⟩
    | _ => .error ⟨.typeIncompatible, f.span⟩

/-- Emission of the tags of one field, threading the accumulated member
state of `struct_body` (the `input_fields` token stream and the
`input_fields_set` hash set): each emitted binding contributes the member
named after the field to the events record, once (the set suppresses a
duplicate member name). -/
def emitTags (emitB : GField → Tag → Except GError GBinding) (f : GField) :
    List Tag → List String → Except GError (List GBinding × List String × List String)
  | [], seen => .ok ([], [], seen)
  | t :: ts, seen =>
    match emitB f t with
    | .error e => .error e
    | .ok b =>
      let step := if f.ident ∈ seen then (([] : List String), seen)
                  else ([f.ident], f.ident :: seen)
      match emitTags emitB f ts step.2 with
      | .error e => .error e
      | .ok (bs, ms, seen') => .ok (b :: bs, step.1 ++ ms, seen')

/-- The per-field part of `struct_body` of the Gui derive (lines 79-144):
filter the `imgui` attributes; none means no source code for the field;
a second attribute fails MultipleDirectives at the span of that second
attribute, before anything is parsed; a single attribute is syn-parsed
(failure is ParseError at the attribute's span) and handed to the
parser, whose tags are emitted one by one.  The parser and emitter are
arguments because they live in the missing `parser` module. -/
def gui_field_body (parseTags : Meta → Except GError (List Tag))
    (emitB : GField → Tag → Except GError GBinding)
    (f : GField) (seen : List String) :
    Except GError (List GBinding × List String × List String) :=
  match f.attrs.filter isGuiImgui with
  | [] => .ok ([], [], seen)
  | [a] =>
    match a.meta with
    | none => .error ⟨.parseError, a.span⟩
    | some m =>
      match parseTags m with
      | .error e => .error e
      | .ok tags => emitTags emitB f tags seen
  | _ :: second :: _ => .error ⟨.multipleDirectives, second.span⟩

/-- The field loop of `struct_body`: fields in declaration order, with
fail-fast error propagation (the `collect::<Result<...>>`), accumulating
the bindings of the rendering routine and the members of the events
record in that same order. -/
def gui_body_aux (parseTags : Meta → Except GError (List Tag))
    (emitB : GField → Tag → Except GError GBinding) :
    List GField → List String →
    Except GError (List GBinding × List String × List String)
  | [], seen => .ok ([], [], seen)
  | f :: rest, seen =>
    match gui_field_body parseTags emitB f seen with
    | .error e => .error e
    | .ok (bs, ms, seen') =>
      match gui_body_aux parseTags emitB rest seen' with
      | .error e => .error e
      | .ok (bs', ms', seen'') => .ok (bs ++ bs', ms ++ ms', seen'')

/-- `struct_body` of the Gui derive: the emitted bindings and the member
list of the synthesized events type. -/
def gui_struct_body (parseTags : Meta → Except GError (List Tag))
    (emitB : GField → Tag → Except GError GBinding)
    (fields : List GField) : Except GError (List GBinding × List String) :=
  match gui_body_aux parseTags emitB fields [] with
  | .error e => .error e
  | .ok (bs, ms, _) => .ok (bs, ms)

/-- How the generated `draw_gui` constructs the initial `Self::Events`
value: by bulk zeroing of raw memory (the source's
`let mut events: Self::Events = unsafe { std::mem::zeroed() };`, line 53
of src/imgui_derive/src/lib.rs) or by explicit per-member default
assignment (what section 4.5 of the spec requires). -/
inductive EventsInit where
  | zeroed
  | perMemberDefault
deriving DecidableEq, Repr

/-- The generated artifacts of the Gui derive for one struct: the
initial-value construction of the events record, the bindings of the
rendering routine in emission order, and the member names of the
synthesized events type in order. -/
structure GuiImpl where
  eventsInit : EventsInit
  bindings : List GBinding
  eventMembers : List String
deriving DecidableEq, Repr

/-- `impl_derive` of the Gui derive (lines 27-59) on a struct: run
`struct_body` and wrap the result in the generated `draw_gui`, whose
events value is always constructed via zeroed memory in the quoted
output (line 53); the body statements then assign into its members. -/
def gui_impl_derive (parseTags : Meta → Except GError (List Tag))
    (emitB : GField → Tag → Except GError GBinding)
    (fields : List GField) : Except GError GuiImpl :=
  match gui_struct_body parseTags emitB fields with
  | .error e => .error e
  | .ok (bs, ms) => .ok ⟨.zeroed, bs, ms⟩

/-- The label field shared by every `ImGuiAttr` variant. -/
def ImGuiAttr.labelOf : ImGuiAttr → Option String
  | .simple l => l
  | .input l _ _ _ => l
  | .slider l _ _ _ => l
  | .drag l _ _ _ _ _ => l

/-- Follows the spec's words (section 4.4): for each variant of the tag,
the optional parameters of its parameter record, each rendered
explicitly as set (`Some`) or absent (`None`).  The label is excluded:
it is a defaulted, always-present plain value, not an Option field of
the generated record. -/
def specOptAssignments : ImGuiAttr → List (String × FieldVal)
  | .simple _ => []
  | .input _ precission step step_fast =>
    [("precission", optIntVal precission),
     ("step", optRatVal step),
     ("step_fast", optRatVal step_fast)]
  | .slider _ display _ _ => [("display", optStrVal display)]
  | .drag _ display min max speed power =>
    [("display", optStrVal display),
     ("min", optRatVal min),
     ("max", optRatVal max),
     ("speed", optRatVal speed),
     ("power", optRatVal power)]

/-- A field of the `ImGuiExt` derive counts as annotated when at least
one `imgui` attribute survives the filter. -/
def mfAnnotated (f : MField) : Bool := !(f.attrs.filter isImguiAttr).isEmpty

/-- A field of the Gui derive counts as annotated when at least one
`imgui` attribute survives the filter. -/
def gfAnnotated (f : GField) : Bool := !(f.attrs.filter isGuiImgui).isEmpty

/-- The meta of `#[imgui(drag(label = "Speed", min = 0.0, max = 10.0))]`. -/
def dragAttrMeta : Meta :=
  .list "imgui" ⟨0⟩
    [.inl (.list "drag" ⟨1⟩
      [.inl (.nameValue "label" ⟨2⟩ (.str "Speed") ⟨2⟩),
       .inl (.nameValue "min" ⟨3⟩ (.float 0) ⟨3⟩),
       .inl (.nameValue "max" ⟨4⟩ (.float 10) ⟨4⟩)] ⟨1⟩)] ⟨0⟩

/-- The meta of `#[imgui(combobox(label = "choose one", selected = sel))]`. -/
def comboAttrMeta (sel : Nat) : Meta :=
  .list "imgui" ⟨0⟩
    [.inl (.list "combobox" ⟨1⟩
      [.inl (.nameValue "label" ⟨2⟩ (.str "choose one") ⟨2⟩),
       .inl (.nameValue "selected" ⟨3⟩ (.int sel) ⟨3⟩)] ⟨1⟩)] ⟨0⟩

/-- The field of examples/combobox.rs: `vec: [ImString; 3]` with the
combobox annotation, parameterized by the `selected` literal. -/
def comboField (sel : Nat) : GField :=
  { ident := "vec", span := ⟨4⟩, ty := .fixedStringArray 3,
    attrs := [{ path := "imgui", span := ⟨0⟩, meta := some (comboAttrMeta sel) }] }

/-- The binding the Gui pipeline emits for `comboField 1`. -/
def comboBinding : GBinding :=
  ⟨"Combobox", "vec",
    [("label", .str "choose one"), ("selected", .lit (.int 1))]⟩

/-- The full generated artifact for the one-field combobox schema. -/
def comboImpl : GuiImpl := ⟨.zeroed, [comboBinding], ["vec"]⟩

/-- An `ImGuiExt` field carrying two well-formed `#[imgui]` directives:
the directives sit at spans 1 and 2, the field itself at span 7. -/
def twoAttrField : MField :=
  { ident := "x", identSpan := ⟨0⟩, span := ⟨7⟩,
    attrs := [⟨"imgui", ⟨1⟩, .ok (.word "imgui" ⟨1⟩)⟩,
              ⟨"imgui", ⟨2⟩, .ok (.word "imgui" ⟨2⟩)⟩] }

/-- An `ImGuiExt` field carrying two `#[imgui]` directives whose first
fails syn's `parse_meta` (a malformed directive), with the syn error at
span 9. -/
def badFirstField : MField :=
  { ident := "x", identSpan := ⟨0⟩, span := ⟨7⟩,
    attrs := [⟨"imgui", ⟨1⟩, .error ⟨⟨9⟩, "expected one of: ..."⟩⟩,
              ⟨"imgui", ⟨2⟩, .ok (.word "imgui" ⟨2⟩)⟩] }

/-- A Gui-derive field carrying two `#[imgui]` directives at spans 1
and 2. -/
def twoAttrGField : GField :=
  { ident := "x", span := ⟨7⟩, ty := .other,
    attrs := [{ path := "imgui", span := ⟨1⟩, meta := some (.word "imgui" ⟨1⟩) },
              { path := "imgui", span := ⟨2⟩, meta := some (.word "imgui" ⟨2⟩) }] }

/-- A two-field `ImGuiExt` schema: `a` annotated with a bare `#[imgui]`,
`b` unannotated. -/
def demoMFields : List MField :=
  [{ ident := "a", identSpan := ⟨0⟩, span := ⟨1⟩,
     attrs := [⟨"imgui", ⟨2⟩, .ok (.word "imgui" ⟨2⟩)⟩] },
   { ident := "b", identSpan := ⟨3⟩, span := ⟨4⟩, attrs := [] }]

/-- The emitted body for `demoMFields`: one binding for `a`, nothing
for `b`. -/
def demoOut : List (Option Binding) :=
  [some ⟨"Simple", "a", [("label", .str "a")]⟩, none]

/-- The same two-field schema for the Gui derive. -/
def demoGFields : List GField :=
  [{ ident := "a", span := ⟨1⟩, ty := .other,
     attrs := [{ path := "imgui", span := ⟨2⟩, meta := some (.word "imgui" ⟨2⟩) }] },
   { ident := "b", span := ⟨4⟩, ty := .other, attrs := [] }]

/-- The bindings the Gui pipeline emits for `demoGFields`. -/
def demoBs : List GBinding := [⟨"Simple", "a", [("label", .str "a")]⟩]

/-- The member list the Gui pipeline synthesizes for `demoGFields`. -/
def demoMs : List String := ["a"]

/-- The three literal kinds the parsers dispatch on. -/
inductive LitKind where
  | str
  | int
  | float
deriving DecidableEq, Repr

/-- The kind of a literal. -/
def Lit.kind : Lit → LitKind
  | .str _ => .str
  | .int _ => .int
  | .float _ => .float

/-- The declared parameter schema of the input tag, read off the
dispatch arms of `parse_input`: `precission` is int-kind, `step` and
`step_fast` are float-kind, `label` is string-kind. -/
def inputParamSchema : List (String × LitKind) :=
  [("precission", .int), ("step", .float), ("step_fast", .float), ("label", .str)]

/-- The declared parameter schema of the slider tag, read off the
dispatch arms of `parse_slider`: `min` and `max` are float-kind,
`label` and `display` are string-kind. -/
def sliderParamSchema : List (String × LitKind) :=
  [("min", .float), ("max", .float), ("label", .str), ("display", .str)]

lemma collectExc_ok_length :
    ∀ (l : List (Except Error Meta)) (ms : List Meta),
      collectExc l = .ok ms → ms.length = l.length := by
  intro l
  induction l with
  | nil =>
    intro ms h
    simp only [collectExc] at h
    cases h
    rfl
  | cons x xs ih =>
    intro ms h
    cases x with
    | error e => simp only [collectExc] at h; cases h
    | ok m =>
      simp only [collectExc] at h
      cases hrec : collectExc xs with
      | error e => rw [hrec] at h; cases h
      | ok ms' =>
        rw [hrec] at h
        cases h
        simp [ih ms' hrec]

lemma process_field_some_iff (f : MField) (ob : Option Binding)
    (h : process_field f = .ok ob) :
    ob.isSome = true ↔ mfAnnotated f = true := by
  unfold process_field at h
  split at h
  · cases h
  · rename_i heq
    cases h
    have hlen := collectExc_ok_length _ _ heq
    simp only [List.length_map, List.length_nil] at hlen
    have hf : f.attrs.filter isImguiAttr = [] :=
      List.length_eq_zero.mp hlen.symm
    simp [mfAnnotated, hf]
  · rename_i m heq
    have hlen := collectExc_ok_length _ _ heq
    simp only [List.length_map, List.length_singleton] at hlen
    have hne : f.attrs.filter isImguiAttr ≠ [] := by
      intro hcon
      rw [hcon] at hlen
      cases hlen
    split at h
    · cases h
    · cases h
    · split at h
      · cases h
      · cases h
      · cases h
        simp [mfAnnotated, List.isEmpty_iff, hne]
  · cases h

lemma resMapM_ok_forall2 {α β : Type} (g : α → Res β) :
    ∀ (l : List α) (out : List β), resMapM g l = .ok out →
      List.Forall₂ (fun x b => g x = .ok b) l out := by
  intro l
  induction l with
  | nil =>
    intro out h
    simp only [resMapM] at h
    cases h
    exact List.Forall₂.nil
  | cons x xs ih =>
    intro out h
    simp only [resMapM] at h
    cases hg : g x with
    | err e => rw [hg] at h; cases h
    | panic s => rw [hg] at h; cases h
    | ok b =>
      rw [hg] at h
      cases hrec : resMapM g xs with
      | err e => rw [hrec] at h; cases h
      | panic s => rw [hrec] at h; cases h
      | ok bs =>
        rw [hrec] at h
        cases h
        exact List.Forall₂.cons hg (ih bs hrec)

lemma specParseTags_ok_singleton (m : Meta) (tags : List Tag)
    (h : specParseTags m = .ok tags) : ∃ t, tags = [t] := by
  unfold specParseTags at h
  cases hr : specResolveTag m with
  | error e => rw [hr] at h; cases h
  | ok t =>
    rw [hr] at h
    cases h
    exact ⟨t, rfl⟩

lemma specEmit_ok_field (f : GField) (t : Tag) (b : GBinding)
    (h : specEmit f t = .ok b) : b.field = f.ident := by
  cases t with
  | simple lab =>
    simp only [specEmit] at h
    cases h
    rfl
  | combobox lab sel =>
    simp only [specEmit] at h
    split at h
    · split at h
      · cases h
        rfl
      · cases h
    · cases h

lemma gui_body_aux_ok_spec :
    ∀ (fields : List GField) (seen : List String) (bs : List GBinding)
      (ms seen' : List String),
      gui_body_aux specParseTags specEmit fields seen = .ok (bs, ms, seen') →
      (fields.map GField.ident).Nodup →
      (∀ f ∈ fields, f.ident ∉ seen) →
      bs.map GBinding.field = (fields.filter gfAnnotated).map GField.ident ∧
      ms = (fields.filter gfAnnotated).map GField.ident := by
  intro fields
  induction fields with
  | nil =>
    intro seen bs ms seen' h _ _
    simp only [gui_body_aux] at h
    cases h
    simp
  | cons f rest ih =>
    intro seen bs ms seen' h hnd hdisj
    have hhead : f.ident ∉ rest.map GField.ident := (List.nodup_cons.mp hnd).1
    have hnd' : (rest.map GField.ident).Nodup := (List.nodup_cons.mp hnd).2
    simp only [gui_body_aux] at h
    split at h
    · cases h
    · rename_i bs₀ ms₀ seen₀ hfb
      split at h
      · cases h
      · rename_i bs₁ ms₁ seen₁ hrec
        cases h
        unfold gui_field_body at hfb
        split at hfb
        · rename_i hflt
          cases hfb
          have hdisj' : ∀ g ∈ rest, g.ident ∉ seen :=
            fun g hg => hdisj g (List.mem_cons_of_mem f hg)
          obtain ⟨h1, h2⟩ := ih seen bs₁ ms₁ _ hrec hnd' hdisj'
          have hga : gfAnnotated f = false := by simp [gfAnnotated, hflt]
          constructor
          · simp [List.filter_cons, hga, h1]
          · simp [List.filter_cons, hga, h2]
        · rename_i a hflt
          split at hfb
          · cases hfb
          · rename_i m hm
            split at hfb
            · cases hfb
            · rename_i tags hpt
              obtain ⟨t, rfl⟩ := specParseTags_ok_singleton m tags hpt
              have hni : f.ident ∉ seen := hdisj f (List.mem_cons_self f rest)
              simp only [emitTags] at hfb
              split at hfb
              · cases hfb
              · rename_i b hem
                simp [hni] at hfb
                obtain ⟨rfl, rfl, rfl⟩ := hfb
                have hdisj' : ∀ g ∈ rest, g.ident ∉ f.ident :: seen := by
                  intro g hg
                  simp only [List.mem_cons]
                  rintro (heq | hmem)
                  · exact hhead (heq ▸ List.mem_map_of_mem GField.ident hg)
                  · exact hdisj g (List.mem_cons_of_mem f hg) hmem
                obtain ⟨h1, h2⟩ := ih (f.ident :: seen) bs₁ ms₁ _ hrec hnd' hdisj'
                have hga : gfAnnotated f = true := by simp [gfAnnotated, hflt]
                have hbf : b.field = f.ident := specEmit_ok_field f t b hem
                constructor
                · simp [List.filter_cons, hga, h1, hbf]
                · simp [List.filter_cons, hga, h2]
        · cases hfb

/-- C1: the claim says the rendering routine constructs the initial
interaction-result value by explicit per-member default assignment and
never by bulk zero-initialization.  The code does the opposite: for every
schema the Gui derive accepts, and any parser and emitter, the generated
draw_gui constructs the events value via bulk zeroing of raw memory
(line 53 of src/imgui_derive/src/lib.rs). -/
theorem draw_gui_events_init_is_zeroed :
    ∀ (parseTags : Meta → Except GError (List Tag))
      (emitB : GField → Tag → Except GError GBinding)
      (fields : List GField) (impl : GuiImpl),
      gui_impl_derive parseTags emitB fields = .ok impl →
      impl.eventsInit = EventsInit.zeroed := by
  intro p e fields impl h
  unfold gui_impl_derive at h
  split at h
  · cases h
  · cases h
    rfl

/-- C1 witness: the one-field combobox schema compiles and its generated
routine zero-initializes the events value. -/
theorem draw_gui_events_init_is_zeroed_witness :
    comboImpl.eventsInit = EventsInit.zeroed :=
  draw_gui_events_init_is_zeroed specParseTags specEmit [comboField 1] comboImpl rfl

/-- C2 counterexample: in the `ImGuiExt` derive, a field at span 7 with
two directives at spans 1 and 2 fails with the multiplicity message at
the FIELD's span 7, not at the second directive's span 2; and when the
first directive is syn-malformed, the reported diagnostic is the syn
parse error, not the multiplicity diagnostic — so neither the coordinate
nor the content-independence of the claim holds there. -/
theorem multiple_directives_coordinate_cex :
    process_field twoAttrField = .err ⟨⟨7⟩, onlyOneMsg⟩
    ∧ (⟨7⟩ : Span) ≠ ⟨2⟩
    ∧ process_field badFirstField = .err ⟨⟨9⟩, "expected one of: ..."⟩
    ∧ ("expected one of: ..." : String) ≠ onlyOneMsg := by
  refine ⟨rfl, ?_, rfl, ?_⟩ <;> decide

/-- C2 (amended): in the Gui derive, a field with two or more imgui
directives fails with MultipleDirectives at the second directive's
coordinate, for every parser and emitter and before any directive
content is examined; in the `ImGuiExt` derive, when all directives
survive syn parsing, the multiplicity error is raised with the field's
coordinate. -/
theorem multiple_directives_diagnostics :
    (∀ (parseTags : Meta → Except GError (List Tag))
       (emitB : GField → Tag → Except GError GBinding)
       (f : GField) (seen : List String) (a b : GAttr) (rest : List GAttr),
       f.attrs.filter isGuiImgui = a :: b :: rest →
       gui_field_body parseTags emitB f seen = .error ⟨.multipleDirectives, b.span⟩)
    ∧ (∀ (f : MField) (m₁ m₂ : Meta) (ms : List Meta),
       collectExc ((f.attrs.filter isImguiAttr).map MAttr.parseMeta) = .ok (m₁ :: m₂ :: ms) →
       process_field f = .err ⟨f.span, onlyOneMsg⟩) := by
  constructor
  · intro p e f seen a b rest hf
    unfold gui_field_body
    rw [hf]
  · intro f m₁ m₂ ms hc
    unfold process_field
    rw [hc]

/-- C2 witness: both halves at fields carrying two well-formed
directives. -/
theorem multiple_directives_diagnostics_witness :
    gui_field_body specParseTags specEmit twoAttrGField [] =
      .error ⟨.multipleDirectives, ⟨2⟩⟩
    ∧ process_field twoAttrField = .err ⟨⟨7⟩, onlyOneMsg⟩ :=
  ⟨multiple_directives_diagnostics.1 specParseTags specEmit twoAttrGField []
      ⟨"imgui", ⟨1⟩, some (.word "imgui" ⟨1⟩)⟩
      ⟨"imgui", ⟨2⟩, some (.word "imgui" ⟨2⟩)⟩ [] rfl,
   multiple_directives_diagnostics.2 twoAttrField
      (.word "imgui" ⟨1⟩) (.word "imgui" ⟨2⟩) [] rfl⟩

/-- C3: when the argument list of a slider tag scans cleanly with neither
min nor max supplied, compilation fails with the missing-required
diagnostic naming min (the first field of the struct literal the source
builds), never the one naming max. -/
theorem slider_missing_min_max_reports_min :
    ∀ (listSpan : Span) (items : List NestedMeta) (lab disp : Option String),
      sliderScan listSpan items none none none none = .ok (none, none, lab, disp) →
      parse_slider listSpan items = .err ⟨listSpan, "Attribute `min` missing."⟩ := by
  intro s items lab disp h
  unfold parse_slider
  rw [h]

/-- C3 witness: a slider directive supplying only a label. -/
theorem slider_missing_min_max_reports_min_witness :
    parse_slider ⟨7⟩ [.inl (.nameValue "label" ⟨8⟩ (.str "Slider") ⟨8⟩)] =
      .err ⟨⟨7⟩, "Attribute `min` missing."⟩ :=
  slider_missing_min_max_reports_min ⟨7⟩
    [.inl (.nameValue "label" ⟨8⟩ (.str "Slider") ⟨8⟩)] (some "Slider") none rfl

/-- C4: in the `ImGuiExt` derive the emitted body has exactly one entry
per field, index-aligned with the declaration order, holding a binding
exactly when the field is annotated; in the Gui derive pipeline the
emitted bindings and the synthesized member list both equal the
annotated fields' idents in declaration order (for distinct field
names); unannotated fields contribute no statement and no member. -/
theorem emission_matches_declaration_order :
    (∀ (fields : List MField) (out : List (Option Binding)),
       imgui_body_fields fields = .ok out →
       List.Forall₂ (fun f ob => Option.isSome ob = true ↔ mfAnnotated f = true) fields out)
    ∧ (∀ (fields : List GField) (bs : List GBinding) (ms : List String),
       gui_struct_body specParseTags specEmit fields = .ok (bs, ms) →
       (fields.map GField.ident).Nodup →
       bs.map GBinding.field = (fields.filter gfAnnotated).map GField.ident ∧
       ms = (fields.filter gfAnnotated).map GField.ident) := by
  constructor
  · intro fields out h
    exact (resMapM_ok_forall2 process_field fields out h).imp
      (fun f ob hx => process_field_some_iff f ob hx)
  · intro fields bs ms h hnd
    unfold gui_struct_body at h
    split at h
    · cases h
    · rename_i bs₀ ms₀ seen₀ haux
      cases h
      exact gui_body_aux_ok_spec fields [] _ _ seen₀ haux hnd (by simp)

/-- C4 witness: the two-field schema with one annotated and one
unannotated field, through both pipelines. -/
theorem emission_matches_declaration_order_witness :
    List.Forall₂ (fun f ob => Option.isSome ob = true ↔ mfAnnotated f = true)
      demoMFields demoOut
    ∧ (demoBs.map GBinding.field = (demoGFields.filter gfAnnotated).map GField.ident
       ∧ demoMs = (demoGFields.filter gfAnnotated).map GField.ident) :=
  ⟨emission_matches_declaration_order.1 demoMFields demoOut rfl,
   emission_matches_declaration_order.2 demoGFields demoBs demoMs rfl (by decide)⟩

/-- C5: the claim's schema (field speed with
drag(label = "Speed", min = 0.0, max = 10.0)) does not compile: the
named drag node hits the aborting `unimplemented!("drag")` in
parse_meta_list.  The emitter half the claim describes does exist: on a
Drag attribute with exactly those parameters it produces exactly the
claimed binding, with speed and power explicitly absent. -/
theorem drag_directive_panics_before_emission :
    parse_meta ⟨9⟩ dragAttrMeta = .panic "drag"
    ∧ into_token_stream (.drag (some "Speed") none (some 0) (some 10) none none) "speed" =
        .ok ⟨"Drag", "speed",
          [("label", .str "Speed"), ("display", .noneVal),
           ("min", .someLit (.float 0)), ("max", .someLit (.float 10)),
           ("power", .noneVal), ("speed", .noneVal)]⟩ :=
  ⟨rfl, rfl⟩

/-- C6 counterexample: `precission = 1.5` (a float for the int-kind
parameter) fails with exactly the same generic diagnostic as the unknown
key `bogus` — the constant "Invalid identifier token", whose text names
no literal kind (it contains none of "int", "Int", "integer", "float");
there is no type-mismatch diagnostic naming the expected kind. -/
theorem wrong_literal_kind_generic_diagnostic_cex :
    parse_input ⟨3⟩ [.inl (.nameValue "precission" ⟨5⟩ (.float (3/2)) ⟨5⟩)] =
      .err ⟨⟨5⟩, "Invalid identifier token"⟩
    ∧ parse_input ⟨3⟩ [.inl (.nameValue "bogus" ⟨6⟩ (.int 1) ⟨6⟩)] =
      .err ⟨⟨6⟩, "Invalid identifier token"⟩
    ∧ ¬ ("int".toList <:+: INVALID_IDENT.toList)
    ∧ ¬ ("Int".toList <:+: INVALID_IDENT.toList)
    ∧ ¬ ("integer".toList <:+: INVALID_IDENT.toList)
    ∧ ¬ ("float".toList <:+: INVALID_IDENT.toList) :=
  ⟨rfl, rfl, by decide, by decide, by decide, by decide⟩

/-- C6 (amended): a named-node directive parameter supplied with a
wrong-kind literal fails compilation, but never with a type-mismatch
diagnostic naming the expected kind.  When the supplied literal's kind
has a dispatch arm in that tag's parser, the error is the generic
INVALID_IDENT at the parameter's ident (the key is treated as an
unknown identifier of that kind); when it has none - an integer literal
in a slider argument list - the error is the catch-all "Unrecognized
attribute 2" at the argument list's span.  Universal over every declared
parameter of both named tags, every literal of a non-matching kind, and
the remaining argument items. -/
theorem wrong_literal_kind_generic_diagnostics :
    ∀ (listSpan idSpan nvSpan : Span) (key : String) (k : LitKind) (l : Lit)
      (rest : List NestedMeta),
      Lit.kind l ≠ k →
      ((key, k) ∈ inputParamSchema →
         parse_input listSpan (.inl (.nameValue key idSpan l nvSpan) :: rest) =
           .err ⟨idSpan, INVALID_IDENT⟩)
      ∧ ((key, k) ∈ sliderParamSchema → Lit.kind l ≠ LitKind.int →
         parse_slider listSpan (.inl (.nameValue key idSpan l nvSpan) :: rest) =
           .err ⟨idSpan, INVALID_IDENT⟩)
      ∧ ((key, k) ∈ sliderParamSchema → Lit.kind l = LitKind.int →
         parse_slider listSpan (.inl (.nameValue key idSpan l nvSpan) :: rest) =
           .err ⟨listSpan, "Unrecognized attribute 2"⟩) := by
  intro ls idSpan nv key k l rest hne
  refine ⟨?_, ?_, ?_⟩
  · intro hmem
    simp only [inputParamSchema, List.mem_cons, List.not_mem_nil, or_false,
      Prod.mk.injEq] at hmem
    rcases hmem with ⟨rfl, rfl⟩ | ⟨rfl, rfl⟩ | ⟨rfl, rfl⟩ | ⟨rfl, rfl⟩ <;>
      cases l <;> first | exact absurd rfl hne | rfl
  · intro hmem hni
    simp only [sliderParamSchema, List.mem_cons, List.not_mem_nil, or_false,
      Prod.mk.injEq] at hmem
    rcases hmem with ⟨rfl, rfl⟩ | ⟨rfl, rfl⟩ | ⟨rfl, rfl⟩ | ⟨rfl, rfl⟩ <;>
      cases l <;> first | exact absurd rfl hne | exact absurd rfl hni | rfl
  · intro hmem hint
    cases l with
    | int n => rfl
    | str s => simp [Lit.kind] at hint
    | float q => simp [Lit.kind] at hint

/-- C6 witness: a float literal for the int-kind `precission` yields the
generic identifier error at the parameter's ident; an integer literal
for the float-kind slider `min` yields the catch-all at the list's
span. -/
theorem wrong_literal_kind_generic_diagnostics_witness :
    parse_input ⟨3⟩ [.inl (.nameValue "precission" ⟨5⟩ (.float (3/2)) ⟨5⟩)] =
      .err ⟨⟨5⟩, INVALID_IDENT⟩
    ∧ parse_slider ⟨3⟩ [.inl (.nameValue "min" ⟨5⟩ (.int 1) ⟨5⟩)] =
      .err ⟨⟨3⟩, "Unrecognized attribute 2"⟩ :=
  ⟨(wrong_literal_kind_generic_diagnostics ⟨3⟩ ⟨5⟩ ⟨5⟩ "precission" .int
      (.float (3/2)) [] (by decide)).1 (by decide),
   (wrong_literal_kind_generic_diagnostics ⟨3⟩ ⟨5⟩ ⟨5⟩ "min" .float
      (.int 1) [] (by decide)).2.2 (by decide) (by decide)⟩

/-- C7: in every emitted binding, the label parameter is the supplied
label when present and the field's own identifier otherwise. -/
theorem label_defaults_to_field_ident :
    ∀ (a : ImGuiAttr) (ident : String) (b : Binding),
      into_token_stream a ident = .ok b →
      ("label", FieldVal.str ((ImGuiAttr.labelOf a).getD ident)) ∈ b.params := by
  intro a ident b h
  cases a <;>
    (simp only [into_token_stream] at h
     cases h
     simp [ImGuiAttr.labelOf])

/-- C7 witness: a label-less Simple attribute labels with the field
ident; one with an explicit label uses it. -/
theorem label_defaults_to_field_ident_witness :
    ("label", FieldVal.str ((ImGuiAttr.labelOf (.simple none)).getD "pos")) ∈
      (Binding.mk "Simple" "pos" [("label", .str "pos")]).params
    ∧ ("label", FieldVal.str ((ImGuiAttr.labelOf (.simple (some "Hi"))).getD "pos")) ∈
      (Binding.mk "Simple" "pos" [("label", .str "Hi")]).params :=
  ⟨label_defaults_to_field_ident (.simple none) "pos" _ rfl,
   label_defaults_to_field_ident (.simple (some "Hi")) "pos" _ rfl⟩

/-- C8: every optional parameter of the attribute variant's record
appears in the emitted parameter record, explicitly as Some when
supplied and None when absent; none is omitted. -/
theorem optional_params_explicitly_present :
    ∀ (a : ImGuiAttr) (ident : String) (b : Binding),
      into_token_stream a ident = .ok b →
      ∀ pv ∈ specOptAssignments a, pv ∈ b.params := by
  intro a ident b h pv hpv
  cases a <;>
    (simp only [into_token_stream] at h
     cases h
     simp only [specOptAssignments, List.mem_cons, List.not_mem_nil, or_false] at hpv ⊢ <;>
     tauto)

/-- C8 witness: the Drag attribute of the C5 example leaves display
explicitly absent in the emitted record. -/
theorem optional_params_explicitly_present_witness :
    ("display", FieldVal.noneVal) ∈
      (Binding.mk "Drag" "speed"
        [("label", .str "Speed"), ("display", .noneVal),
         ("min", .someLit (.float 0)), ("max", .someLit (.float 10)),
         ("power", .noneVal), ("speed", .noneVal)]).params :=
  optional_params_explicitly_present
    (.drag (some "Speed") none (some 0) (some 10) none none) "speed" _ rfl
    ("display", FieldVal.noneVal) (by decide)

/-- C9: the combobox example field of examples/combobox.rs with
selected = 1 compiles through the Gui pipeline; the same field with
selected = 5 (outside the 3-element array) fails IndexOutOfRange. -/
theorem combobox_selected_bounds_check :
    gui_impl_derive specParseTags specEmit [comboField 1] = .ok comboImpl
    ∧ gui_impl_derive specParseTags specEmit [comboField 5] =
        .error ⟨.indexOutOfRange, ⟨4⟩⟩ :=
  ⟨rfl, rfl⟩

/-- C10: any `#[imgui( ... )]` whose top-level list has length other
than one fails with the Invalid-attribute-format diagnostic at the
list's span, whatever the elements are (so before any tag is resolved);
and the name-value form `#[imgui = "..."]` fails with the same
diagnostic at the meta's span for every literal. -/
theorem invalid_attr_format_shapes :
    (∀ (nameSpan identSpan listSpan : Span) (id : String) (nested : List NestedMeta),
       nested.length ≠ 1 →
       parse_meta nameSpan (.list id identSpan nested listSpan) =
         .err ⟨listSpan, INVALID_ATTR_FORMAT⟩)
    ∧ (∀ (nameSpan identSpan nvSpan : Span) (id : String) (l : Lit),
       parse_meta nameSpan (.nameValue id identSpan l nvSpan) =
         .err ⟨nvSpan, INVALID_ATTR_FORMAT⟩) := by
  constructor
  · intro ns is ls id nested hlen
    simp only [parse_meta, parse_meta_list]
    rw [if_pos hlen]
  · intro ns is nv id l
    rfl

/-- C10 witness: a two-element list whose elements are drag nodes (which
would abort compilation if they were ever resolved) still fails with the
format diagnostic. -/
theorem invalid_attr_format_shapes_witness :
    parse_meta ⟨0⟩ (.list "imgui" ⟨1⟩
      [.inl (.list "drag" ⟨2⟩ [] ⟨2⟩), .inl (.list "drag" ⟨3⟩ [] ⟨3⟩)] ⟨4⟩) =
      .err ⟨⟨4⟩, INVALID_ATTR_FORMAT⟩ :=
  invalid_attr_format_shapes.1 ⟨0⟩ ⟨1⟩ ⟨4⟩ "imgui"
    [.inl (.list "drag" ⟨2⟩ [] ⟨2⟩), .inl (.list "drag" ⟨3⟩ [] ⟨3⟩)] (by decide)
